import Mathlib

/-!
Verification of the minimum-cost covering knapsack solver (minKP.py).

The development shallowly embeds the core of the program: the linear-model
builders for the single- and multi-knapsack cases (primal, integer or
relaxed, and dual), the result extractors applied to raw solver values, and
the mode/cardinality dispatch of `main`.  The external LP/MILP solver is an
opaque parameter: a function from a built model to a status, an objective
value and a valuation of the variables.  Numeric solver values are modelled
as rationals.
-/

/-- Solver status, mirroring pulp's `LpStatus` values. -/
inductive Status where
  | NotSolved
  | Optimal
  | Infeasible
  | Unbounded
  | Undefined
deriving DecidableEq

/-- Direction of a linear inequality constraint. -/
inductive Ineq where
  | le
  | ge
deriving DecidableEq

/-- A linear constraint: an explicit list of (variable, coefficient) terms,
a direction, and a right-hand side. -/
structure LinCon (ι : Type) where
  terms : List (ι × ℚ)
  cmp : Ineq
  rhs : ℚ
deriving DecidableEq

/-- Left-hand side value of a constraint under a valuation of the variables. -/
def LinCon.lhs {ι : Type} (c : LinCon ι) (v : ι → ℚ) : ℚ :=
  (c.terms.map (fun t => t.2 * v t.1)).sum

/-- Satisfaction of a constraint under a valuation. -/
def LinCon.sat {ι : Type} (c : LinCon ι) (v : ι → ℚ) : Prop :=
  match c.cmp with
  | Ineq.le => c.lhs v ≤ c.rhs
  | Ineq.ge => c.rhs ≤ c.lhs v

/-- A built linear model: objective direction and terms, constraints, and
variable domains (lower bound, optional upper bound, integrality flag). -/
structure Model (ι : Type) where
  maximize : Bool
  objTerms : List (ι × ℚ)
  cons : List (LinCon ι)
  lower : ι → ℚ
  upper : ι → Option ℚ
  integerVars : Bool

/-- A valuation is feasible for a model when it satisfies every constraint
and every variable-domain condition. -/
def Model.feasible {ι : Type} (m : Model ι) (v : ι → ℚ) : Prop :=
  (∀ c ∈ m.cons, c.sat v) ∧
  (∀ x, m.lower x ≤ v x) ∧
  (∀ x b, m.upper x = some b → v x ≤ b) ∧
  (m.integerVars = true → ∀ x, v x = 0 ∨ v x = 1)

/-- Raw output of the external solver: status, objective value, and the
value assigned to each variable. -/
structure SolverResult (ι : Type) where
  status : Status
  objective : ℚ
  values : ι → ℚ

/-- A solver is status-sound when it reports `Infeasible` on every model
that has no feasible valuation. -/
def StatusSound {ι : Type} (solver : Model ι → SolverResult ι) : Prop :=
  ∀ m, (∀ v, ¬ m.feasible v) → (solver m).status = Status.Infeasible

/-- A problem instance as read from the input file: cardinalities and the
demand / weight / cost vectors (indexed access, as the code only ever reads
indices below the cardinalities). -/
structure ProblemInstance where
  nb_knapsacks : Nat
  nb_items : Nat
  demand : Nat → ℚ
  weight : Nat → ℚ
  cost : Nat → ℚ

/-- Variables of the single-knapsack dual model: `v_1` and `u_j j`
(the code's `v_1` and `u[j]`). -/
inductive SDualVar where
  | v1
  | u (j : Nat)
deriving DecidableEq

/-- Variables of the multi-knapsack dual model: `vi i` per knapsack and
`vj j` per item (the code's `vi[i]` and `vj[j]`). -/
inductive MDualVar where
  | vi (i : Nat)
  | vj (j : Nat)
deriving DecidableEq

/-- The selection threshold 1e-5 used by the single-knapsack primal
extractor (`value(x[j]) > 1e-5`). -/
def epsilonSel : ℚ := 1 / 100000

/-- Single-knapsack primal model (minKP.py lines 22-29): binary (mode 0) or
continuous (mode 1) variables `x[j] ∈ [0,1]`, objective
min `Σ cost[j]·x[j]`, one coverage constraint
`Σ weight[j]·x[j] ≥ demand[0]`. -/
def singlePrimalModel (inst : ProblemInstance) (mode : Int) : Model Nat where
  maximize := false
  objTerms := (List.range inst.nb_items).map (fun j => (j, inst.cost j))
  cons := [{ terms := (List.range inst.nb_items).map (fun j => (j, inst.weight j)),
             cmp := Ineq.ge, rhs := inst.demand 0 }]
  lower := fun _ => 0
  upper := fun _ => some 1
  integerVars := mode == 0

/-- Single-knapsack dual model (minKP.py lines 37-46): variables `v_1 ≥ 0`
and `u[j] ≥ 0`, objective max `demand[0]·v_1 − Σ u[j]`, constraints
`weight[j]·v_1 − u[j] ≤ cost[j]`. -/
def singleDualModel (inst : ProblemInstance) : Model SDualVar where
  maximize := true
  objTerms := (SDualVar.v1, inst.demand 0) ::
    (List.range inst.nb_items).map (fun j => (SDualVar.u j, (-1 : ℚ)))
  cons := (List.range inst.nb_items).map (fun j =>
    { terms := [(SDualVar.v1, inst.weight j), (SDualVar.u j, (-1 : ℚ))],
      cmp := Ineq.le, rhs := inst.cost j })
  lower := fun _ => 0
  upper := fun _ => none
  integerVars := false

/-- Multi-knapsack primal model (minKP.py lines 78-94): variables
`x[i,j] ∈ [0,1]` (binary in mode 0), objective min `Σ cost[j]·x[i,j]`,
per-knapsack coverage constraints and per-item exclusivity constraints
`Σ_i x[i,j] ≤ 1`. -/
def multiPrimalModel (inst : ProblemInstance) (mode : Int) : Model (Nat × Nat) where
  maximize := false
  objTerms := (List.range inst.nb_knapsacks).flatMap (fun i =>
    (List.range inst.nb_items).map (fun j => ((i, j), inst.cost j)))
  cons :=
    (List.range inst.nb_knapsacks).map (fun i =>
      { terms := (List.range inst.nb_items).map (fun j => ((i, j), inst.weight j)),
        cmp := Ineq.ge, rhs := inst.demand i })
    ++ (List.range inst.nb_items).map (fun j =>
      { terms := (List.range inst.nb_knapsacks).map (fun i => ((i, j), (1 : ℚ))),
        cmp := Ineq.le, rhs := 1 })
  lower := fun _ => 0
  upper := fun _ => some 1
  integerVars := mode == 0

/-- Multi-knapsack dual model (minKP.py lines 107-117): variables
`vi[i] ≥ 0` and `vj[j] ≥ 0`, objective
max `Σ demand[i]·vi[i] − Σ vj[j]`, constraints
`weight[j]·vi[i] − vj[j] ≤ cost[j]` for every pair `(i,j)`. -/
def multiDualModel (inst : ProblemInstance) : Model MDualVar where
  maximize := true
  objTerms := (List.range inst.nb_knapsacks).map (fun i => (MDualVar.vi i, inst.demand i))
    ++ (List.range inst.nb_items).map (fun j => (MDualVar.vj j, (-1 : ℚ)))
  cons := (List.range inst.nb_knapsacks).flatMap (fun i =>
    (List.range inst.nb_items).map (fun j =>
      { terms := [(MDualVar.vi i, inst.weight j), (MDualVar.vj j, (-1 : ℚ))],
        cmp := Ineq.le, rhs := inst.cost j }))
  lower := fun _ => 0
  upper := fun _ => none
  integerVars := false

/-- Single-knapsack primal extraction (minKP.py lines 32-33):
`[(j, weight[j], cost[j]) for j in range(nb_items) if value(x[j]) > 1e-5]`. -/
def selectedSingle (inst : ProblemInstance) (xv : Nat → ℚ) : List (Nat × ℚ × ℚ) :=
  ((List.range inst.nb_items).filter (fun j => decide (epsilonSel < xv j))).map
    (fun j => (j, inst.weight j, inst.cost j))

/-- Multi-knapsack primal extraction for one knapsack (minKP.py lines
102-103): `[(j, weight[j], cost[j]) for j in range(nb_items) if
value(x[i,j]) > 0]` — note the threshold is a strict `> 0`, not `> 1e-5`. -/
def selectedMultiIn (inst : ProblemInstance) (xv : Nat → Nat → ℚ) (i : Nat) :
    List (Nat × ℚ × ℚ) :=
  ((List.range inst.nb_items).filter (fun j => decide (0 < xv i j))).map
    (fun j => (j, inst.weight j, inst.cost j))

/-- Multi-knapsack primal extraction over all knapsacks (minKP.py lines
100-103): the dictionary `{i: [...] for i in range(nb_knapsacks)}`,
modelled as the list of per-knapsack selections indexed by `i`. -/
def selectedMultiMap (inst : ProblemInstance) (xv : Nat → Nat → ℚ) :
    List (List (Nat × ℚ × ℚ)) :=
  (List.range inst.nb_knapsacks).map (fun i => selectedMultiIn inst xv i)

/-- Single-knapsack dual extraction (minKP.py lines 53-56): the pair of the
`v1` vector (one entry) and the `uj` vector. -/
def dualSingleExtract (inst : ProblemInstance) (dv : SDualVar → ℚ) : List ℚ × List ℚ :=
  ([dv SDualVar.v1], (List.range inst.nb_items).map (fun j => dv (SDualVar.u j)))

/-- Multi-knapsack dual extraction (minKP.py lines 126-129): the `vi` vector
(one entry per knapsack) and the `vj` vector (one entry per item). -/
def dualMultiExtract (inst : ProblemInstance) (dv : MDualVar → ℚ) : List ℚ × List ℚ :=
  ((List.range inst.nb_knapsacks).map (fun i => dv (MDualVar.vi i)),
   (List.range inst.nb_items).map (fun j => dv (MDualVar.vj j)))

/-- Result of `solve_single_knapsack`: either a primal result with the
selected-item list, or a dual result with the `v1` and `uj` vectors. -/
inductive SingleOutcome where
  | primal (status : Status) (objective : ℚ) (selected : List (Nat × ℚ × ℚ))
  | dual (status : Status) (objective : ℚ) (v1 : List ℚ) (uj : List ℚ)
deriving DecidableEq

/-- Result of `solve_multi_knapsack`: either a primal result with the
per-knapsack selections, or a dual result with the `vi` and `vj` vectors. -/
inductive MultiOutcome where
  | primal (status : Status) (objective : ℚ) (selected : List (List (Nat × ℚ × ℚ)))
  | dual (status : Status) (objective : ℚ) (vi : List ℚ) (vj : List ℚ)
deriving DecidableEq

/-- `solve_single_knapsack` (minKP.py lines 21-57): on mode 0 or 1 build the
primal model, call the solver, and extract the selection from the returned
values (no status check); otherwise build the dual model, call the solver,
and extract the dual vectors. -/
def solve_single_knapsack (inst : ProblemInstance) (mode : Int)
    (solverP : Model Nat → SolverResult Nat)
    (solverD : Model SDualVar → SolverResult SDualVar) : SingleOutcome :=
  if mode = 0 ∨ mode = 1 then
    let r := solverP (singlePrimalModel inst mode)
    SingleOutcome.primal r.status r.objective (selectedSingle inst r.values)
  else
    let r := solverD (singleDualModel inst)
    SingleOutcome.dual r.status r.objective
      (dualSingleExtract inst r.values).1 (dualSingleExtract inst r.values).2

/-- `solve_multi_knapsack` (minKP.py lines 62-130): same pipeline with the
multi-knapsack models and extractors. -/
def solve_multi_knapsack (inst : ProblemInstance) (mode : Int)
    (solverP : Model (Nat × Nat) → SolverResult (Nat × Nat))
    (solverD : Model MDualVar → SolverResult MDualVar) : MultiOutcome :=
  if mode = 0 ∨ mode = 1 then
    let r := solverP (multiPrimalModel inst mode)
    MultiOutcome.primal r.status r.objective
      (selectedMultiMap inst (fun i j => r.values (i, j)))
  else
    let r := solverD (multiDualModel inst)
    MultiOutcome.dual r.status r.objective
      (dualMultiExtract inst r.values).1 (dualMultiExtract inst r.values).2

/-- Control flow of `main` (minKP.py lines 179-208) after argument parsing:
exit with code 1 when the mode is not in {0,1,2}, otherwise run the
single-knapsack solve when `nb_knapsacks == 1` and the multi-knapsack solve
in every other case. -/
inductive MainAction where
  | exitError (code : Nat)
  | runSingle
  | runMulti
deriving DecidableEq

/-- The dispatch decisions of `main`: the mode check (lines 185-187) and the
cardinality branch (line 201). -/
def mainDispatch (mode : Int) (nb_knapsacks : Int) : MainAction :=
  if ¬ (mode = 0 ∨ mode = 1 ∨ mode = 2) then MainAction.exitError 1
  else if nb_knapsacks = 1 then MainAction.runSingle
  else MainAction.runMulti

/-! Concrete instances and solver stubs used for evaluations and witnesses. -/

/-- A single-knapsack instance with one item: demand 5, weight 3, cost 7. -/
def instOne : ProblemInstance := ⟨1, 1, fun _ => 5, fun _ => 3, fun _ => 7⟩

/-- A two-knapsack instance with one item: demand 4, weight 4, cost 1. -/
def instTwo : ProblemInstance := ⟨2, 1, fun _ => 4, fun _ => 4, fun _ => 1⟩

/-- The degenerate instance of Scenario B: one knapsack, no items, demand 5. -/
def instEmpty : ProblemInstance := ⟨1, 0, fun _ => 5, fun _ => 0, fun _ => 0⟩

/-- A solver stub that reports Infeasible but leaves every variable at 1. -/
def infeasOneSolver : Model Nat → SolverResult Nat :=
  fun _ => ⟨Status.Infeasible, 0, fun _ => 1⟩

/-- A solver stub that always reports Infeasible with all variables at 0. -/
def constInfeasSolverP : Model Nat → SolverResult Nat :=
  fun _ => ⟨Status.Infeasible, 0, fun _ => 0⟩

/-- A single-dual solver stub reporting Infeasible with all variables at 0. -/
def zeroSolverSD : Model SDualVar → SolverResult SDualVar :=
  fun _ => ⟨Status.Infeasible, 0, fun _ => 0⟩

/-! Claim theorems. -/

/-- C5: for every mode value outside {0, 1, 2}, `main` reports a validation
error and exits with the non-zero code 1 before any model is built: the
dispatch never reaches the single- or multi-knapsack solve path, whatever
the instance's number of knapsacks. -/
theorem C5_invalid_mode_rejected (mode nbk : Int)
    (h0 : mode ≠ 0) (h1 : mode ≠ 1) (h2 : mode ≠ 2) :
    mainDispatch mode nbk = MainAction.exitError 1
    ∧ (1 : Nat) ≠ 0
    ∧ mainDispatch mode nbk ≠ MainAction.runSingle
    ∧ mainDispatch mode nbk ≠ MainAction.runMulti := by
  have hnot : ¬ (mode = 0 ∨ mode = 1 ∨ mode = 2) := by
    rintro (h | h | h)
    · exact h0 h
    · exact h1 h
    · exact h2 h
  unfold mainDispatch
  rw [if_pos hnot]
  refine ⟨rfl, by decide, by decide, by decide⟩

/-- C5 witness: mode 5 with one knapsack is rejected with exit code 1. -/
theorem C5_invalid_mode_rejected_witness :
    (5 : Int) ≠ 0 ∧ (5 : Int) ≠ 1 ∧ (5 : Int) ≠ 2
    ∧ (mainDispatch 5 1 = MainAction.exitError 1
       ∧ (1 : Nat) ≠ 0
       ∧ mainDispatch 5 1 ≠ MainAction.runSingle
       ∧ mainDispatch 5 1 ≠ MainAction.runMulti) :=
  ⟨by decide, by decide, by decide,
   C5_invalid_mode_rejected 5 1 (by decide) (by decide) (by decide)⟩

/-- C6 counterexample: with the valid mode 0 and nb_knapsacks = 0, `main`
does not report a validation error: it dispatches to the multi-knapsack
solve path, so a model is built and the solver is called, refuting the
claim that the instance is rejected before model construction. -/
theorem C6_counterexample :
    mainDispatch 0 0 = MainAction.runMulti
    ∧ MainAction.runMulti ≠ MainAction.exitError 1 := by decide

/-- C6 amended: nb_knapsacks = 0 is not validated at all; for every valid
mode the program proceeds to the multi-knapsack path (where a model is
built and the solver invoked) instead of exiting with an error. -/
theorem C6_zero_knapsacks_not_validated (mode : Int)
    (h : mode = 0 ∨ mode = 1 ∨ mode = 2) :
    mainDispatch mode 0 = MainAction.runMulti
    ∧ ∀ c : Nat, mainDispatch mode 0 ≠ MainAction.exitError c := by
  unfold mainDispatch
  rw [if_neg (not_not_intro h), if_neg (by decide : ¬ ((0 : Int) = 1))]
  exact ⟨rfl, fun c hc => MainAction.noConfusion hc⟩

/-- C6 amended witness: mode 2 with nb_knapsacks = 0 runs the multi path. -/
theorem C6_zero_knapsacks_not_validated_witness :
    ((2 : Int) = 0 ∨ (2 : Int) = 1 ∨ (2 : Int) = 2)
    ∧ (mainDispatch 2 0 = MainAction.runMulti
       ∧ ∀ c : Nat, mainDispatch 2 0 ≠ MainAction.exitError c) :=
  ⟨Or.inr (Or.inr rfl),
   C6_zero_knapsacks_not_validated 2 (Or.inr (Or.inr rfl))⟩

/-- C2 counterexample: on the single-knapsack instance with one item
(demand 5, weight 3, cost 7), the dual model the code builds refutes the
claim: its objective is not the single term demand[0]·v_1 (it also carries
the term −u_0 for the per-item variable u_0), and the claimed constraint
weight[0]·v_1 ≤ cost[0] with no u-term is not among its constraints. -/
theorem C2_counterexample :
    (singleDualModel instOne).objTerms ≠ [(SDualVar.v1, (5 : ℚ))]
    ∧ ({ terms := [(SDualVar.v1, (3 : ℚ))], cmp := Ineq.le, rhs := 7 } : LinCon SDualVar) ∉
        (singleDualModel instOne).cons
    ∧ (SDualVar.u 0, (-1 : ℚ)) ∈ (singleDualModel instOne).objTerms := by decide

/-- C2 amended: the per-item dual variables are not absent in the
single-knapsack dual: the model maximizes demand[0]·v_1 − Σ_j u_j with a
non-negative, unbounded-above variable u_j for every item j, and its
constraints are weight[j]·v_1 − u_j ≤ cost[j] for every item j (the same
shape as the multi-knapsack dual restricted to one knapsack). -/
theorem C2_single_dual_has_item_vars (inst : ProblemInstance) (j : Nat)
    (hj : j < inst.nb_items) :
    (singleDualModel inst).maximize = true
    ∧ (SDualVar.v1, inst.demand 0) ∈ (singleDualModel inst).objTerms
    ∧ (SDualVar.u j, (-1 : ℚ)) ∈ (singleDualModel inst).objTerms
    ∧ ({ terms := [(SDualVar.v1, inst.weight j), (SDualVar.u j, (-1 : ℚ))],
         cmp := Ineq.le, rhs := inst.cost j } : LinCon SDualVar) ∈ (singleDualModel inst).cons
    ∧ (singleDualModel inst).lower (SDualVar.u j) = 0
    ∧ (singleDualModel inst).upper (SDualVar.u j) = none := by
  refine ⟨rfl, List.mem_cons_self _ _, ?_, ?_, rfl, rfl⟩
  · exact List.mem_cons_of_mem _ (List.mem_map.2 ⟨j, List.mem_range.2 hj, rfl⟩)
  · exact List.mem_map.2 ⟨j, List.mem_range.2 hj, rfl⟩

/-- C2 amended witness: the amended dual shape at the one-item instance. -/
theorem C2_single_dual_has_item_vars_witness :
    0 < instOne.nb_items
    ∧ ((singleDualModel instOne).maximize = true
       ∧ (SDualVar.v1, instOne.demand 0) ∈ (singleDualModel instOne).objTerms
       ∧ (SDualVar.u 0, (-1 : ℚ)) ∈ (singleDualModel instOne).objTerms
       ∧ ({ terms := [(SDualVar.v1, instOne.weight 0), (SDualVar.u 0, (-1 : ℚ))],
            cmp := Ineq.le, rhs := instOne.cost 0 } : LinCon SDualVar) ∈
           (singleDualModel instOne).cons
       ∧ (singleDualModel instOne).lower (SDualVar.u 0) = 0
       ∧ (singleDualModel instOne).upper (SDualVar.u 0) = none) :=
  ⟨by decide, C2_single_dual_has_item_vars instOne 0 (by decide)⟩

/-- C3 counterexample: the multi-knapsack primal extractor does not use the
threshold 1e-5: on the two-knapsack instance, the value 1/1000000, which
lies in (0, 1e-5], is selected for knapsack 0 — the code filters with a
strict > 0 there, refuting the claim that an item whose value lies in
(0, 1e-5] is never selected. -/
theorem C3_counterexample :
    (0 : ℚ) < 1 / 1000000 ∧ (1 : ℚ) / 1000000 ≤ epsilonSel
    ∧ selectedMultiIn instTwo (fun _ _ => 1 / 1000000) 0 = [(0, 4, 1)] := by
  refine ⟨by norm_num, by norm_num [epsilonSel],
    by norm_num [selectedMultiIn, instTwo, List.range_succ]⟩

/-- C3 amended: the fixed threshold ε = 1e-5 governs only the
single-knapsack primal extractor; the multi-knapsack primal extractor
selects exactly the items with solver value strictly greater than 0.
Characterization of membership for both extractors. -/
theorem C3_selection_thresholds (inst : ProblemInstance) (xv : Nat → ℚ)
    (xm : Nat → Nat → ℚ) (i j : Nat) :
    epsilonSel = 1 / 100000
    ∧ ((j, inst.weight j, inst.cost j) ∈ selectedSingle inst xv ↔
        j < inst.nb_items ∧ epsilonSel < xv j)
    ∧ ((j, inst.weight j, inst.cost j) ∈ selectedMultiIn inst xm i ↔
        j < inst.nb_items ∧ 0 < xm i j) := by
  refine ⟨rfl, ?_, ?_⟩
  · constructor
    · intro h
      obtain ⟨a, ha, heq⟩ := List.mem_map.1 h
      obtain ⟨har, hlt⟩ := List.mem_filter.1 ha
      have haj : a = j := congrArg Prod.fst heq
      subst haj
      exact ⟨List.mem_range.1 har, of_decide_eq_true hlt⟩
    · rintro ⟨hj, hx⟩
      exact List.mem_map.2
        ⟨j, List.mem_filter.2 ⟨List.mem_range.2 hj, decide_eq_true hx⟩, rfl⟩
  · constructor
    · intro h
      obtain ⟨a, ha, heq⟩ := List.mem_map.1 h
      obtain ⟨har, hlt⟩ := List.mem_filter.1 ha
      have haj : a = j := congrArg Prod.fst heq
      subst haj
      exact ⟨List.mem_range.1 har, of_decide_eq_true hlt⟩
    · rintro ⟨hj, hx⟩
      exact List.mem_map.2
        ⟨j, List.mem_filter.2 ⟨List.mem_range.2 hj, decide_eq_true hx⟩, rfl⟩

/-- C4 counterexample: a solve whose solver status is Infeasible still
performs extraction: on the one-item instance, with a solver that reports
Infeasible while leaving the variable at value 1, the returned solution
carries the non-empty selected-item list [(0, 3, 7)], refuting the claim
that no selected-item extraction is performed on such a status. -/
theorem C4_counterexample :
    solve_single_knapsack instOne 0 infeasOneSolver zeroSolverSD =
      SingleOutcome.primal Status.Infeasible 0 [(0, 3, 7)]
    ∧ ([((0 : Nat), (3 : ℚ), (7 : ℚ))] : List (Nat × ℚ × ℚ)) ≠ [] := by
  constructor
  · norm_num [solve_single_knapsack, infeasOneSolver, selectedSingle, instOne,
      epsilonSel, List.range_succ]
  · simp

/-- C4 amended: the code never inspects the solver status before
extraction: for every instance and every solver, the returned solution
always carries the selection (or the dual vectors) extracted from the
solver's variable values, with the status passed through verbatim —
including when that status is Infeasible, Unbounded or Undefined. -/
theorem C4_extraction_unconditional (inst : ProblemInstance)
    (sP : Model Nat → SolverResult Nat)
    (sD : Model SDualVar → SolverResult SDualVar)
    (mP : Model (Nat × Nat) → SolverResult (Nat × Nat))
    (mD : Model MDualVar → SolverResult MDualVar) :
    (solve_single_knapsack inst 0 sP sD =
      SingleOutcome.primal (sP (singlePrimalModel inst 0)).status
        (sP (singlePrimalModel inst 0)).objective
        (selectedSingle inst (sP (singlePrimalModel inst 0)).values))
    ∧ (solve_single_knapsack inst 1 sP sD =
      SingleOutcome.primal (sP (singlePrimalModel inst 1)).status
        (sP (singlePrimalModel inst 1)).objective
        (selectedSingle inst (sP (singlePrimalModel inst 1)).values))
    ∧ (solve_single_knapsack inst 2 sP sD =
      SingleOutcome.dual (sD (singleDualModel inst)).status
        (sD (singleDualModel inst)).objective
        (dualSingleExtract inst (sD (singleDualModel inst)).values).1
        (dualSingleExtract inst (sD (singleDualModel inst)).values).2)
    ∧ (solve_multi_knapsack inst 0 mP mD =
      MultiOutcome.primal (mP (multiPrimalModel inst 0)).status
        (mP (multiPrimalModel inst 0)).objective
        (selectedMultiMap inst (fun i j => (mP (multiPrimalModel inst 0)).values (i, j))))
    ∧ (solve_multi_knapsack inst 1 mP mD =
      MultiOutcome.primal (mP (multiPrimalModel inst 1)).status
        (mP (multiPrimalModel inst 1)).objective
        (selectedMultiMap inst (fun i j => (mP (multiPrimalModel inst 1)).values (i, j))))
    ∧ (solve_multi_knapsack inst 2 mP mD =
      MultiOutcome.dual (mD (multiDualModel inst)).status
        (mD (multiDualModel inst)).objective
        (dualMultiExtract inst (mD (multiDualModel inst)).values).1
        (dualMultiExtract inst (mD (multiDualModel inst)).values).2) := by
  refine ⟨?_, ?_, ?_, ?_, ?_, ?_⟩ <;>
    simp [solve_single_knapsack, solve_multi_knapsack]

/-- C1: for every instance with more than one knapsack, in the primal
multi-knapsack modes (integer mode 0 and relaxed mode 1) the built model
contains the per-item exclusivity constraint Σ_i x[i,j] ≤ 1 for every item
j, and the multi-knapsack dual model has a non-negative unbounded-above
variable vj j per item, subtracts it (coefficient −1) in its objective, and
contains the constraint weight[j]·vi[i] − vj[j] ≤ cost[j] for every pair
(i, j). -/
theorem C1_multi_exclusivity (inst : ProblemInstance) (mode : Int)
    (_hk : 1 < inst.nb_knapsacks) (_hm : mode = 0 ∨ mode = 1)
    (i j : Nat) (hi : i < inst.nb_knapsacks) (hj : j < inst.nb_items) :
    ({ terms := (List.range inst.nb_knapsacks).map (fun i2 => ((i2, j), (1 : ℚ))),
       cmp := Ineq.le, rhs := 1 } : LinCon (Nat × Nat)) ∈ (multiPrimalModel inst mode).cons
    ∧ (multiDualModel inst).lower (MDualVar.vj j) = 0
    ∧ (multiDualModel inst).upper (MDualVar.vj j) = none
    ∧ (MDualVar.vj j, (-1 : ℚ)) ∈ (multiDualModel inst).objTerms
    ∧ ({ terms := [(MDualVar.vi i, inst.weight j), (MDualVar.vj j, (-1 : ℚ))],
         cmp := Ineq.le, rhs := inst.cost j } : LinCon MDualVar) ∈ (multiDualModel inst).cons := by
  refine ⟨?_, rfl, rfl, ?_, ?_⟩
  · exact List.mem_append_right _ (List.mem_map.2 ⟨j, List.mem_range.2 hj, rfl⟩)
  · exact List.mem_append_right _ (List.mem_map.2 ⟨j, List.mem_range.2 hj, rfl⟩)
  · exact List.mem_flatMap.2
      ⟨i, List.mem_range.2 hi, List.mem_map.2 ⟨j, List.mem_range.2 hj, rfl⟩⟩

/-- C1 witness: the exclusivity facts at the two-knapsack one-item
instance, mode 0, knapsack 0, item 0. -/
theorem C1_multi_exclusivity_witness :
    1 < instTwo.nb_knapsacks ∧ ((0 : Int) = 0 ∨ (0 : Int) = 1)
    ∧ 0 < instTwo.nb_knapsacks ∧ 0 < instTwo.nb_items
    ∧ (({ terms := (List.range instTwo.nb_knapsacks).map (fun i2 => ((i2, 0), (1 : ℚ))),
          cmp := Ineq.le, rhs := 1 } : LinCon (Nat × Nat)) ∈ (multiPrimalModel instTwo 0).cons
       ∧ (multiDualModel instTwo).lower (MDualVar.vj 0) = 0
       ∧ (multiDualModel instTwo).upper (MDualVar.vj 0) = none
       ∧ (MDualVar.vj 0, (-1 : ℚ)) ∈ (multiDualModel instTwo).objTerms
       ∧ ({ terms := [(MDualVar.vi 0, instTwo.weight 0), (MDualVar.vj 0, (-1 : ℚ))],
            cmp := Ineq.le, rhs := instTwo.cost 0 } : LinCon MDualVar) ∈
           (multiDualModel instTwo).cons) :=
  ⟨by decide, Or.inl rfl, by decide, by decide,
   C1_multi_exclusivity instTwo 0 (by decide) (Or.inl rfl) 0 0 (by decide) (by decide)⟩

/-- C7: on the instance nb_knapsacks = 1, nb_items = 0, demand = [5], in
each primal mode the built model's only constraint is the empty-sum
coverage constraint ≥ 5, the model admits no feasible valuation, and for
every status-sound solver the returned outcome has status Infeasible (with
an empty selection). -/
theorem C7_empty_items_infeasible (mode : Int) (hm : mode = 0 ∨ mode = 1)
    (solverP : Model Nat → SolverResult Nat)
    (solverD : Model SDualVar → SolverResult SDualVar)
    (hs : StatusSound solverP) :
    (singlePrimalModel instEmpty mode).cons =
      [{ terms := [], cmp := Ineq.ge, rhs := 5 }]
    ∧ (∀ v, ¬ (singlePrimalModel instEmpty mode).feasible v)
    ∧ solve_single_knapsack instEmpty mode solverP solverD =
        SingleOutcome.primal Status.Infeasible
          (solverP (singlePrimalModel instEmpty mode)).objective [] := by
  have hcons : (singlePrimalModel instEmpty mode).cons =
      [{ terms := [], cmp := Ineq.ge, rhs := 5 }] := by
    simp [singlePrimalModel, instEmpty]
  have hinf : ∀ v, ¬ (singlePrimalModel instEmpty mode).feasible v := by
    intro v hv
    have h5 := hv.1 { terms := [], cmp := Ineq.ge, rhs := 5 }
      (by rw [hcons]; exact List.mem_singleton_self _)
    norm_num [LinCon.sat, LinCon.lhs] at h5
  refine ⟨hcons, hinf, ?_⟩
  unfold solve_single_knapsack
  rw [if_pos hm]
  show SingleOutcome.primal (solverP (singlePrimalModel instEmpty mode)).status _ _ = _
  rw [hs _ hinf]
  rfl

/-- C7 witness: the empty-sum infeasibility facts at mode 0 with the
constant Infeasible solver (which is status-sound). -/
theorem C7_empty_items_infeasible_witness :
    ((0 : Int) = 0 ∨ (0 : Int) = 1) ∧ StatusSound constInfeasSolverP
    ∧ ((singlePrimalModel instEmpty 0).cons =
         [{ terms := [], cmp := Ineq.ge, rhs := 5 }]
       ∧ (∀ v, ¬ (singlePrimalModel instEmpty 0).feasible v)
       ∧ solve_single_knapsack instEmpty 0 constInfeasSolverP zeroSolverSD =
           SingleOutcome.primal Status.Infeasible
             (constInfeasSolverP (singlePrimalModel instEmpty 0)).objective []) :=
  ⟨Or.inl rfl, fun _ _ => rfl,
   C7_empty_items_infeasible 0 (Or.inl rfl) constInfeasSolverP zeroSolverSD
     (fun _ _ => rfl)⟩

/-- C8: every extracted selected-item list — single-knapsack and each
knapsack of the multi-knapsack extractor — is in strictly ascending
item-index order, and each entry is exactly the triple
(j, weight[j], cost[j]) taken unchanged from the instance, for an item
index j below nb_items. -/
theorem C8_selection_sorted (inst : ProblemInstance) (xv : Nat → ℚ)
    (xm : Nat → Nat → ℚ) (i : Nat) :
    ((selectedSingle inst xv).Pairwise (fun a b => a.1 < b.1)
      ∧ ∀ e ∈ selectedSingle inst xv,
          e.1 < inst.nb_items ∧ e = (e.1, inst.weight e.1, inst.cost e.1))
    ∧ ((selectedMultiIn inst xm i).Pairwise (fun a b => a.1 < b.1)
      ∧ ∀ e ∈ selectedMultiIn inst xm i,
          e.1 < inst.nb_items ∧ e = (e.1, inst.weight e.1, inst.cost e.1)) := by
  refine ⟨⟨?_, ?_⟩, ?_, ?_⟩
  · exact List.pairwise_map.2
      ((List.pairwise_lt_range _).sublist (List.filter_sublist _))
  · intro e he
    obtain ⟨a, ha, rfl⟩ := List.mem_map.1 he
    exact ⟨List.mem_range.1 (List.mem_filter.1 ha).1, rfl⟩
  · exact List.pairwise_map.2
      ((List.pairwise_lt_range _).sublist (List.filter_sublist _))
  · intro e he
    obtain ⟨a, ha, rfl⟩ := List.mem_map.1 he
    exact ⟨List.mem_range.1 (List.mem_filter.1 ha).1, rfl⟩

/-- C9: result extraction is a pure deterministic function of the solver
values: any two pointwise-equal valuations yield identical ordered
selected-item lists and identical dual vectors, for every extractor of the
program. -/
theorem C9_extraction_deterministic (inst : ProblemInstance)
    (xv xv2 : Nat → ℚ) (hxv : ∀ j, xv j = xv2 j)
    (xm xm2 : Nat → Nat → ℚ) (hxm : ∀ i j, xm i j = xm2 i j)
    (ds ds2 : SDualVar → ℚ) (hds : ∀ z, ds z = ds2 z)
    (dm dm2 : MDualVar → ℚ) (hdm : ∀ z, dm z = dm2 z) :
    selectedSingle inst xv = selectedSingle inst xv2
    ∧ (∀ i, selectedMultiIn inst xm i = selectedMultiIn inst xm2 i)
    ∧ selectedMultiMap inst xm = selectedMultiMap inst xm2
    ∧ dualSingleExtract inst ds = dualSingleExtract inst ds2
    ∧ dualMultiExtract inst dm = dualMultiExtract inst dm2 := by
  obtain rfl : xv = xv2 := funext hxv
  obtain rfl : xm = xm2 := funext fun i => funext (hxm i)
  obtain rfl : ds = ds2 := funext hds
  obtain rfl : dm = dm2 := funext hdm
  exact ⟨rfl, fun _ => rfl, rfl, rfl, rfl⟩

/-- C9 witness: determinism at the one-item instance with constant
valuations. -/
theorem C9_extraction_deterministic_witness :
    (∀ _j : Nat, (1 : ℚ) = 1) ∧ (∀ _i _j : Nat, (1 : ℚ) = 1)
    ∧ (∀ _z : SDualVar, (1 : ℚ) = 1) ∧ (∀ _z : MDualVar, (1 : ℚ) = 1)
    ∧ (selectedSingle instOne (fun _ => 1) = selectedSingle instOne (fun _ => 1)
       ∧ (∀ i, selectedMultiIn instOne (fun _ _ => 1) i =
           selectedMultiIn instOne (fun _ _ => 1) i)
       ∧ selectedMultiMap instOne (fun _ _ => 1) = selectedMultiMap instOne (fun _ _ => 1)
       ∧ dualSingleExtract instOne (fun _ => 1) = dualSingleExtract instOne (fun _ => 1)
       ∧ dualMultiExtract instOne (fun _ => 1) = dualMultiExtract instOne (fun _ => 1)) :=
  ⟨fun _ => rfl, fun _ _ => rfl, fun _ => rfl, fun _ => rfl,
   C9_extraction_deterministic instOne (fun _ => 1) (fun _ => 1) (fun _ => rfl)
     (fun _ _ => 1) (fun _ _ => 1) (fun _ _ => rfl)
     (fun _ => 1) (fun _ => 1) (fun _ => rfl)
     (fun _ => 1) (fun _ => 1) (fun _ => rfl)⟩

/-- C10: multi-knapsack result shape: the primal extraction has one entry
(a possibly empty list) for every knapsack index below nb_knapsacks — the
entry at index i being exactly knapsack i's selection — and the dual
extraction's vectors have length exactly nb_knapsacks (vi) and
nb_items (vj). -/
theorem C10_result_shape (inst : ProblemInstance) (xm : Nat → Nat → ℚ)
    (dm : MDualVar → ℚ) (i : Nat) (hi : i < inst.nb_knapsacks) :
    (selectedMultiMap inst xm).length = inst.nb_knapsacks
    ∧ (selectedMultiMap inst xm).getD i [] = selectedMultiIn inst xm i
    ∧ (dualMultiExtract inst dm).1.length = inst.nb_knapsacks
    ∧ (dualMultiExtract inst dm).2.length = inst.nb_items := by
  refine ⟨by simp [selectedMultiMap], ?_, by simp [dualMultiExtract],
    by simp [dualMultiExtract]⟩
  unfold selectedMultiMap
  rw [List.getD_eq_getElem?_getD, List.getElem?_map, List.getElem?_range hi]
  rfl

/-- C10 witness: the result shape at the two-knapsack instance, i = 0. -/
theorem C10_result_shape_witness :
    0 < instTwo.nb_knapsacks
    ∧ ((selectedMultiMap instTwo (fun _ _ => 1)).length = instTwo.nb_knapsacks
       ∧ (selectedMultiMap instTwo (fun _ _ => 1)).getD 0 [] =
           selectedMultiIn instTwo (fun _ _ => 1) 0
       ∧ (dualMultiExtract instTwo (fun _ => 1)).1.length = instTwo.nb_knapsacks
       ∧ (dualMultiExtract instTwo (fun _ => 1)).2.length = instTwo.nb_items) :=
  ⟨by decide, C10_result_shape instTwo (fun _ _ => 1) (fun _ => 1) 0 (by decide)⟩
